import Mathlib

attribute [local semireducible] Rat.mul Rat.inv Rat.add Rat.sub

/-!
Verification of the Energy_Project analysis pipeline.

We give a shallow embedding, in Lean, of the decision logic of the
repository: the ensemble anomaly detector `detect_anomalies_advanced`
and the simple detector `detect_anomalies`, the input validation and
path construction of `load_data`, the error handling of the
`POST /api/analyze` Flask handler, and the CSV data generator.

Numeric values are modelled as rationals.  Library models (isolation
forest, one-class SVM, DBSCAN) are black boxes: their 0/1 per-row
outputs enter the embedding as free inputs, exactly as the ensemble
code consumes them.  Randomness in the data generator is a free
sampling function.
-/

namespace Energy

/-- The mean of a pandas numeric column: sum divided by length
(rational division, `/0 = 0` for the empty frame). -/
def pythonMean (xs : List ℚ) : ℚ := xs.sum / xs.length

/-- `Series.quantile(q)` of pandas with the default linear
interpolation: with the values sorted ascending as `v_0 … v_(n-1)`,
the result is `v_lo + frac * (v_(lo+1) - v_lo)` where
`lo = floor(q*(n-1))` and `frac = q*(n-1) - lo`. -/
def quantile (xs : List ℚ) (q : ℚ) : ℚ :=
  let s := List.insertionSort (· ≤ ·) xs
  let n := s.length
  if n = 0 then 0
  else
    let pos : ℚ := q * ((n : ℚ) - 1)
    let lo : ℕ := pos.floor.toNat
    let frac : ℚ := pos - (lo : ℚ)
    let vlo := s.getD lo 0
    let vhi := s.getD (min (lo + 1) (n - 1)) 0
    vlo + frac * (vhi - vlo)

/-- The five per-row 0/1 detector outputs consumed by the ensemble
decision of `detect_anomalies_advanced` (ml_engine.py lines 145-177):
isolation forest (`iso_forest_anomaly == -1`), one-class SVM
(`svm_anomaly == -1`), DBSCAN outlier (`dbscan_anomaly`), z-score
threshold (`z_score_anomaly`) and IQR bound (`iqr_anomaly`). -/
structure DetectorFlags where
  isoForest : Bool
  svm : Bool
  dbscan : Bool
  zScore : Bool
  iqr : Bool
deriving DecidableEq, Repr

/-- `anomaly_scores` of ml_engine.py lines 173-177: the sum of the
five 0/1 detector flags for one row. -/
def anomalyScore (f : DetectorFlags) : ℕ :=
  (if f.isoForest then 1 else 0) + (if f.svm then 1 else 0) +
    (if f.dbscan then 1 else 0) + (if f.zScore then 1 else 0) +
    (if f.iqr then 1 else 0)

/-- One input row of `detect_anomalies_advanced`: the column
`Total Energy (kWh)`, the engineered column `usage_variance`, and the
five detector flags already computed for the row. -/
structure Row where
  totalEnergy : ℚ
  usageVariance : ℚ
  flags : DetectorFlags
deriving DecidableEq, Repr

/-- One output row of `detect_anomalies_advanced`: the input columns
together with the columns `final_anomaly`, `anomaly_confidence` and
`anomaly_type` added by the ensemble decision. -/
structure OutRow where
  totalEnergy : ℚ
  usageVariance : ℚ
  flags : DetectorFlags
  final_anomaly : ℕ
  anomaly_confidence : ℚ
  anomaly_type : String
deriving DecidableEq, Repr

/-- The ensemble decision and anomaly classification of
`detect_anomalies_advanced` (ml_engine.py lines 172-196).  Per row:
`final_anomaly = (anomaly_scores >= 2)`,
`anomaly_confidence = anomaly_scores / 5.0`; then the sequential
`.loc` assignments of `anomaly_type`, starting from `'Normal'`:
`'High Consumption'` for flagged rows with energy above the 0.9
quantile, then `'Low Consumption'` for flagged rows with energy below
the 0.1 quantile, then `'Unusual Pattern'` for flagged rows with
`usage_variance` above its 0.9 quantile (a later assignment
overwrites an earlier one). -/
def detect_anomalies_advanced (rows : List Row) : List OutRow :=
  let energies := rows.map (·.totalEnergy)
  let hiQ := quantile energies (9/10)
  let loQ := quantile energies (1/10)
  let varQ := quantile (rows.map (·.usageVariance)) (9/10)
  rows.map fun r =>
    let score := anomalyScore r.flags
    let fin : ℕ := if 2 ≤ score then 1 else 0
    let conf : ℚ := (score : ℚ) / 5
    let t1 := if r.totalEnergy > hiQ ∧ fin = 1 then "High Consumption" else "Normal"
    let t2 := if r.totalEnergy < loQ ∧ fin = 1 then "Low Consumption" else t1
    let t3 := if r.usageVariance > varQ ∧ fin = 1 then "Unusual Pattern" else t2
    { totalEnergy := r.totalEnergy
      usageVariance := r.usageVariance
      flags := r.flags
      final_anomaly := fin
      anomaly_confidence := conf
      anomaly_type := t3 }

/-- One input row of the simple detector `detect_anomalies`
(data_loader.py lines 40-50): the `Total Energy (kWh)` value and the
isolation-forest output for the row (`true` encodes the prediction
`-1`, i.e. flagged; the model itself is a black box). -/
structure SimpleRow where
  totalEnergy : ℚ
  isoFlag : Bool
deriving DecidableEq, Repr

/-- One output row of the simple detector: the input together with
the columns `Anomaly` and `Anomaly Reason`. -/
structure SimpleOut where
  totalEnergy : ℚ
  isoFlag : Bool
  anomaly : String
  anomalyReason : String
deriving DecidableEq, Repr

/-- The simple detector `detect_anomalies` of data_loader.py lines
40-50.  `Anomaly` is the isolation-forest output mapped
`{1: "Normal", -1: "Anomaly"}`; `Anomaly Reason` is a ladder of
threshold checks against multiples of the column mean (each later
`.loc` assignment overwrites the earlier); finally every row with
energy strictly below the mean has `Anomaly` overwritten to
`"Normal"`. -/
def detect_anomalies (rows : List SimpleRow) : List SimpleOut :=
  let avg := pythonMean (rows.map (·.totalEnergy))
  rows.map fun r =>
    let a0 := if r.isoFlag then "Anomaly" else "Normal"
    let re1 := if r.totalEnergy > 3/2 * avg then "Unusual Spike" else "Normal"
    let re2 := if r.totalEnergy > 2 * avg then "Possible Overuse" else re1
    let re3 := if r.totalEnergy > 3 * avg then "Faulty Equipment?" else re2
    let a1 := if r.totalEnergy < avg then "Normal" else a0
    { totalEnergy := r.totalEnergy
      isoFlag := r.isoFlag
      anomaly := a1
      anomalyReason := re3 }

/-- Python `str.title()` on a list of characters: an alphabetic
character is uppercased when the previous character is not
alphabetic, lowercased otherwise; other characters pass through.  The
boolean argument records whether the previous character was
alphabetic. -/
def pyTitleAux : Bool → List Char → List Char
  | _, [] => []
  | prevAlpha, c :: cs =>
    let c' := if c.isAlpha then (if prevAlpha then c.toLower else c.toUpper) else c
    c' :: pyTitleAux c.isAlpha cs

/-- Python `str.title()`. -/
def pyTitle (s : String) : String := ⟨pyTitleAux false s.data⟩

/-- `[datetime(2000, i, 1).strftime('%B') for i in range(1, 13)]`:
the twelve English month names. -/
def validMonths : List String :=
  ["January", "February", "March", "April", "May", "June",
   "July", "August", "September", "October", "November", "December"]

/-- The errors `load_data` can raise: `invalidMonth`, `invalidDay`
and `missingColumn` are Python `ValueError`s, `fileNotFound` is a
`FileNotFoundError`. -/
inductive LoadError where
  | invalidMonth
  | invalidDay
  | fileNotFound
  | missingColumn
deriving DecidableEq, Repr

/-- `validate_month` (data_loader.py lines 11-16 and the identical
`_validate_month` of ml_engine.py): title-case the input and require
membership in the twelve English month names. -/
def validate_month (month : String) : Except LoadError String :=
  let m := pyTitle month
  if m ∈ validMonths then Except.ok m else Except.error LoadError.invalidMonth

/-- Gregorian leap-year rule, as implemented by Python `datetime`. -/
def isLeapYear (y : ℕ) : Bool :=
  y % 4 == 0 && (y % 100 != 0 || y % 400 == 0)

/-- Number of days of month `m` (1-12) in year `y`: the value of
`(datetime(year, m + 1, 1) - timedelta(days=1)).day` for `m < 12`,
and `31` for December. -/
def daysInMonth (y : ℕ) (m : ℕ) : ℕ :=
  if m = 2 then (if isLeapYear y then 29 else 28)
  else if m = 4 ∨ m = 6 ∨ m = 9 ∨ m = 11 then 30
  else 31

/-- `datetime.strptime(month, "%B").month` for a valid month name:
its 1-based position among the English month names. -/
def monthNumber (m : String) : ℕ := validMonths.indexOf m + 1

/-- `validate_day` (data_loader.py lines 18-24 and the identical
`_validate_day` of ml_engine.py): require `1 <= day <= max_days` for
the already-validated month, where `max_days` comes from
`datetime.now().year` — the embedding takes the year as a
parameter. -/
def validate_day (year : ℕ) (month : String) (day : ℤ) : Except LoadError ℤ :=
  let maxDays : ℤ := daysInMonth year (monthNumber month)
  if 1 ≤ day ∧ day ≤ maxDays then Except.ok day else Except.error LoadError.invalidDay

/-- A parsed CSV as far as `load_data` inspects it: its column names
and its rows of cells. -/
structure Frame where
  columns : List String
  cells : List (List ℚ)
deriving DecidableEq, Repr

/-- The file path built by `load_data`:
`os.path.join(base_dir, month, f"{bed_type} Bedroom Data - {month_abbr}", f"{month_abbr}_{bed_type}bed_energy_consumption_day_{day}.csv")`
with `month_abbr = month[:3]`. -/
def dataFilePath (baseDir bedType month : String) (day : ℤ) : String :=
  let monthAbbr := month.take 3
  let folderName := bedType ++ " Bedroom Data - " ++ monthAbbr
  let filename :=
    monthAbbr ++ "_" ++ bedType ++ "bed_energy_consumption_day_" ++ toString day ++ ".csv"
  baseDir ++ "/" ++ month ++ "/" ++ folderName ++ "/" ++ filename

/-- `load_data` (data_loader.py lines 26-38 and the identical method
of ml_engine.py lines 52-68).  The filesystem is a map from paths to
optionally-present parsed CSV files.  Month and day are validated
(raising `ValueError`); `bed_type` is used only to build the path and
is never validated here.  A missing file raises `FileNotFoundError`;
a present file without a `'Total Energy (kWh)'` column raises
`ValueError`; otherwise the parsed frame is returned. -/
def load_data (year : ℕ) (fs : String → Option Frame)
    (baseDir bedType month : String) (day : ℤ) : Except LoadError Frame :=
  match validate_month month with
  | Except.error e => Except.error e
  | Except.ok m =>
    match validate_day year m day with
    | Except.error e => Except.error e
    | Except.ok d =>
      match fs (dataFilePath baseDir bedType m d) with
      | none => Except.error LoadError.fileNotFound
      | some df =>
        if "Total Energy (kWh)" ∈ df.columns then Except.ok df
        else Except.error LoadError.missingColumn

deriving instance DecidableEq for Except

/-- A Python exception as the Flask handler reports it: `str(e)` and
`traceback.format_exc()`. -/
structure PyExc where
  msg : String
  trace : String
deriving DecidableEq, Repr

/-- The JSON body of `POST /api/analyze`: `data.get` of the three
parameters, each absent (`None`) or a string. -/
structure AnalyzeRequest where
  bedType : Option String
  month : Option String
  day : Option String
deriving DecidableEq, Repr

/-- The response of the handler, as far as the spec claims reach:
HTTP status, the `success` flag, the successful payload, and the
`error` / `traceback` fields of the error body. -/
structure ApiResponse (α : Type) where
  status : ℕ
  success : Bool
  payload : Option α
  errorMsg : Option String
  traceback : Option String
deriving DecidableEq, Repr

/-- Python truthiness of an optional string (`None` and `""` are
falsy), used by `if not all([bed_type, month, day])`. -/
def truthyStr : Option String → Bool
  | none => false
  | some s => s ≠ ""

/-- The `analyze_data` handler of server.py lines 32-90.  The whole
body sits in one `try`: parameter extraction, the falsy-check that
returns 400, and the pipeline
(`load_data`/`engineer_features`/`detect_anomalies_advanced`/
`predict_energy_consumption`/`generate_insights`/serialization),
which the embedding takes as a function from the three parameters to
either a payload or a raised exception.  An exception becomes a 500
response whose JSON carries `str(e)` and `traceback.format_exc()`. -/
def analyze_data {α : Type} (req : AnalyzeRequest)
    (pipeline : String → String → String → Except PyExc α) : ApiResponse α :=
  if truthyStr req.bedType && truthyStr req.month && truthyStr req.day then
    match req.bedType, req.month, req.day with
    | some b, some m, some d =>
      match pipeline b m d with
      | Except.ok p =>
        { status := 200, success := true, payload := some p
          errorMsg := none, traceback := none }
      | Except.error e =>
        { status := 500, success := false, payload := none
          errorMsg := some e.msg, traceback := some e.trace }
    | _, _, _ =>
      { status := 400, success := false, payload := none
        errorMsg := some "Missing required parameters: bedType, month, day"
        traceback := none }
  else
    { status := 400, success := false, payload := none
      errorMsg := some "Missing required parameters: bedType, month, day"
      traceback := none }

/-- `generate_energy_usage` of the data generator (6bedJan.py lines
16-28): for `i in range(0, 24, 2)` one uniform sample is appended,
with bounds chosen by the band `i` falls in; the sampler is a free
function of the interval start and the two bounds. -/
def generate_energy_usage (rand : ℕ → ℚ → ℚ → ℚ) : List ℚ :=
  (List.range' 0 12 2).filterMap fun i =>
    if 0 ≤ i ∧ i < 8 then some (rand i (2/10) (6/10))
    else if 8 ≤ i ∧ i < 12 then some (rand i (6/10) (15/10))
    else if 12 ≤ i ∧ i < 18 then some (rand i (3/10) (12/10))
    else if 18 ≤ i ∧ i < 24 then some (rand i (12/10) 3)
    else none

/-- One generated record `[day, room_no] + energy_usage +
[total_energy]` (6bedJan.py lines 33-37), with
`total_energy = sum(energy_usage)`. -/
structure GenRecord where
  day : ℕ
  roomNo : ℕ
  usage : List ℚ
  totalEnergy : ℚ
deriving DecidableEq, Repr

/-- The rows generated for one day: `for room_no in range(1, num_rooms
+ 1)` with `num_rooms = 15`, each room sampling its own usage via the
free sampler (indexed by room). -/
def generateDay (rand : ℕ → ℕ → ℚ → ℚ → ℚ) (day : ℕ) : List GenRecord :=
  (List.range' 1 15).map fun room =>
    let u := generate_energy_usage (rand room)
    { day := day, roomNo := room, usage := u, totalEnergy := u.sum }

/-! Theorems. -/

/-- The five 0/1 votes sum to at most 5. -/
lemma anomalyScore_le_five (f : DetectorFlags) : anomalyScore f ≤ 5 := by
  rcases f with ⟨a, b, c, d, e⟩
  revert a b c d e
  decide

/-- Claim C1: in `detect_anomalies_advanced`, for every row of the
input, the consensus flag `final_anomaly` equals `1` if and only if
at least 2 of the 5 detector outputs (isolation forest, one-class
SVM, DBSCAN outlier, z-score threshold, IQR bound) mark that row
anomalous, and equals `0` otherwise. -/
theorem final_anomaly_is_two_of_five_consensus
    (rows : List Row) (o : OutRow) (ho : o ∈ detect_anomalies_advanced rows) :
    (o.final_anomaly = 1 ↔ 2 ≤ anomalyScore o.flags) ∧
    (o.final_anomaly = 0 ↔ anomalyScore o.flags < 2) := by
  simp only [detect_anomalies_advanced, List.mem_map] at ho
  obtain ⟨r, _, rfl⟩ := ho
  by_cases h : 2 ≤ anomalyScore r.flags <;> simp [h]
  omega

/-- Witness for C1: a row flagged by exactly the isolation forest and
the SVM reaches the consensus. -/
theorem final_anomaly_witness :
    (({ totalEnergy := 0, usageVariance := 0
        flags := ⟨true, true, false, false, false⟩
        final_anomaly := 1, anomaly_confidence := 2/5
        anomaly_type := "Normal" } : OutRow).final_anomaly = 1 ↔
      2 ≤ anomalyScore ⟨true, true, false, false, false⟩) ∧
    (({ totalEnergy := 0, usageVariance := 0
        flags := ⟨true, true, false, false, false⟩
        final_anomaly := 1, anomaly_confidence := 2/5
        anomaly_type := "Normal" } : OutRow).final_anomaly = 0 ↔
      anomalyScore (⟨true, true, false, false, false⟩ : DetectorFlags) < 2) :=
  final_anomaly_is_two_of_five_consensus
    [{ totalEnergy := 0, usageVariance := 0, flags := ⟨true, true, false, false, false⟩ }]
    _ (by decide)

/-- Claim C2: in `detect_anomalies_advanced`, for every row, the
`anomaly_confidence` value equals the number of the 5 detectors that
flagged that row divided by 5, hence is one of
0, 0.2, 0.4, 0.6, 0.8, 1.0. -/
theorem anomaly_confidence_is_vote_fraction
    (rows : List Row) (o : OutRow) (ho : o ∈ detect_anomalies_advanced rows) :
    o.anomaly_confidence = (anomalyScore o.flags : ℚ) / 5 ∧
    (o.anomaly_confidence = 0 ∨ o.anomaly_confidence = 1/5 ∨
      o.anomaly_confidence = 2/5 ∨ o.anomaly_confidence = 3/5 ∨
      o.anomaly_confidence = 4/5 ∨ o.anomaly_confidence = 1) := by
  simp only [detect_anomalies_advanced, List.mem_map] at ho
  obtain ⟨r, _, rfl⟩ := ho
  refine ⟨rfl, ?_⟩
  rcases r.flags with ⟨a, b, c, d, e⟩
  cases a <;> cases b <;> cases c <;> cases d <;> cases e <;>
    simp [anomalyScore]

/-- Witness for C2: the confidence of a row flagged by exactly two
detectors is 2/5. -/
theorem anomaly_confidence_witness :
    ({ totalEnergy := 0, usageVariance := 0
       flags := ⟨true, true, false, false, false⟩
       final_anomaly := 1, anomaly_confidence := 2/5
       anomaly_type := "Normal" } : OutRow).anomaly_confidence =
        (anomalyScore (⟨true, true, false, false, false⟩ : DetectorFlags) : ℚ) / 5 ∧
    (({ totalEnergy := 0, usageVariance := 0
        flags := ⟨true, true, false, false, false⟩
        final_anomaly := 1, anomaly_confidence := 2/5
        anomaly_type := "Normal" } : OutRow).anomaly_confidence = 0 ∨
      ({ totalEnergy := 0, usageVariance := 0
         flags := ⟨true, true, false, false, false⟩
         final_anomaly := 1, anomaly_confidence := 2/5
         anomaly_type := "Normal" } : OutRow).anomaly_confidence = 1/5 ∨
      ({ totalEnergy := 0, usageVariance := 0
         flags := ⟨true, true, false, false, false⟩
         final_anomaly := 1, anomaly_confidence := 2/5
         anomaly_type := "Normal" } : OutRow).anomaly_confidence = 2/5 ∨
      ({ totalEnergy := 0, usageVariance := 0
         flags := ⟨true, true, false, false, false⟩
         final_anomaly := 1, anomaly_confidence := 2/5
         anomaly_type := "Normal" } : OutRow).anomaly_confidence = 3/5 ∨
      ({ totalEnergy := 0, usageVariance := 0
         flags := ⟨true, true, false, false, false⟩
         final_anomaly := 1, anomaly_confidence := 2/5
         anomaly_type := "Normal" } : OutRow).anomaly_confidence = 4/5 ∨
      ({ totalEnergy := 0, usageVariance := 0
         flags := ⟨true, true, false, false, false⟩
         final_anomaly := 1, anomaly_confidence := 2/5
         anomaly_type := "Normal" } : OutRow).anomaly_confidence = 1) :=
  anomaly_confidence_is_vote_fraction
    [{ totalEnergy := 0, usageVariance := 0, flags := ⟨true, true, false, false, false⟩ }]
    _ (by decide)

/-- Claim C10: in the output of `detect_anomalies_advanced` the
consensus flag is fully determined by the confidence score: for every
row, `final_anomaly = 1` iff `anomaly_confidence ≥ 0.4`, and
`anomaly_confidence` always lies in `[0, 1]`. -/
theorem final_anomaly_determined_by_confidence
    (rows : List Row) (o : OutRow) (ho : o ∈ detect_anomalies_advanced rows) :
    (o.final_anomaly = 1 ↔ 2/5 ≤ o.anomaly_confidence) ∧
    0 ≤ o.anomaly_confidence ∧ o.anomaly_confidence ≤ 1 := by
  simp only [detect_anomalies_advanced, List.mem_map] at ho
  obtain ⟨r, _, rfl⟩ := ho
  rcases r.flags with ⟨a, b, c, d, e⟩
  cases a <;> cases b <;> cases c <;> cases d <;> cases e <;>
    simp [anomalyScore] <;> norm_num

/-- Witness for C10 at a row with exactly two votes. -/
theorem final_anomaly_determined_by_confidence_witness :
    (({ totalEnergy := 0, usageVariance := 0
        flags := ⟨true, true, false, false, false⟩
        final_anomaly := 1, anomaly_confidence := 2/5
        anomaly_type := "Normal" } : OutRow).final_anomaly = 1 ↔
      2/5 ≤ ({ totalEnergy := 0, usageVariance := 0
               flags := ⟨true, true, false, false, false⟩
               final_anomaly := 1, anomaly_confidence := 2/5
               anomaly_type := "Normal" } : OutRow).anomaly_confidence) ∧
    0 ≤ ({ totalEnergy := 0, usageVariance := 0
           flags := ⟨true, true, false, false, false⟩
           final_anomaly := 1, anomaly_confidence := 2/5
           anomaly_type := "Normal" } : OutRow).anomaly_confidence ∧
    ({ totalEnergy := 0, usageVariance := 0
       flags := ⟨true, true, false, false, false⟩
       final_anomaly := 1, anomaly_confidence := 2/5
       anomaly_type := "Normal" } : OutRow).anomaly_confidence ≤ 1 :=
  final_anomaly_determined_by_confidence
    [{ totalEnergy := 0, usageVariance := 0, flags := ⟨true, true, false, false, false⟩ }]
    _ (by decide)

/-- Counterexample to claim C3 as stated: in the two-row dataset
below, the second row is flagged by the consensus and its total
energy lies above the 0.9 quantile of the energy column, yet its
`anomaly_type` is not `'High Consumption'` — the later
`'Unusual Pattern'` assignment (high `usage_variance`) overwrites
it. -/
theorem anomaly_type_counterexample :
    ¬ (∀ o ∈ detect_anomalies_advanced
          [{ totalEnergy := 0, usageVariance := 0
             flags := ⟨false, false, false, false, false⟩ },
           { totalEnergy := 10, usageVariance := 10
             flags := ⟨true, true, true, true, true⟩ }],
        o.final_anomaly = 1 →
        o.totalEnergy >
          quantile ([{ totalEnergy := 0, usageVariance := 0
                       flags := ⟨false, false, false, false, false⟩ },
                     { totalEnergy := 10, usageVariance := 10
                       flags := ⟨true, true, true, true, true⟩ }].map
                      (fun r : Row => r.totalEnergy)) (9/10) →
        o.anomaly_type = "High Consumption") := by
  decide

/-- Claim C3 as amended: the `anomaly_type` of every output row is
the last matching `.loc` assignment: rows not flagged by the
consensus are `'Normal'`; a flagged row whose `usage_variance`
exceeds the 0.9 quantile of the variance column is
`'Unusual Pattern'` (this overrides the energy bands); otherwise a
flagged row below the 0.1 energy quantile is `'Low Consumption'`,
a flagged row above the 0.9 energy quantile is `'High Consumption'`,
and any remaining row stays `'Normal'`. -/
theorem anomaly_type_classification
    (rows : List Row) (o : OutRow) (ho : o ∈ detect_anomalies_advanced rows) :
    (o.final_anomaly = 0 → o.anomaly_type = "Normal") ∧
    o.anomaly_type =
      (if o.final_anomaly = 1 ∧
          o.usageVariance > quantile (rows.map (fun r => r.usageVariance)) (9/10) then
        "Unusual Pattern"
      else if o.final_anomaly = 1 ∧
          o.totalEnergy < quantile (rows.map (fun r => r.totalEnergy)) (1/10) then
        "Low Consumption"
      else if o.final_anomaly = 1 ∧
          o.totalEnergy > quantile (rows.map (fun r => r.totalEnergy)) (9/10) then
        "High Consumption"
      else "Normal") := by
  simp only [detect_anomalies_advanced, List.mem_map] at ho
  obtain ⟨r, _, rfl⟩ := ho
  constructor
  · intro h0
    simp only at h0 ⊢
    split_ifs at h0 ⊢ with h1 h2 h3 h4 <;> simp_all
  · simp only
    split_ifs <;> simp_all <;> linarith

/-- Witness for the amended C3 at the counterexample dataset: the
flagged high-variance row is classified `'Unusual Pattern'`. -/
theorem anomaly_type_classification_witness :
    (({ totalEnergy := 10, usageVariance := 10
        flags := ⟨true, true, true, true, true⟩
        final_anomaly := 1, anomaly_confidence := 1
        anomaly_type := "Unusual Pattern" } : OutRow).final_anomaly = 0 →
      ({ totalEnergy := 10, usageVariance := 10
         flags := ⟨true, true, true, true, true⟩
         final_anomaly := 1, anomaly_confidence := 1
         anomaly_type := "Unusual Pattern" } : OutRow).anomaly_type = "Normal") ∧
    ({ totalEnergy := 10, usageVariance := 10
       flags := ⟨true, true, true, true, true⟩
       final_anomaly := 1, anomaly_confidence := 1
       anomaly_type := "Unusual Pattern" } : OutRow).anomaly_type =
      (if ({ totalEnergy := 10, usageVariance := 10
             flags := ⟨true, true, true, true, true⟩
             final_anomaly := 1, anomaly_confidence := 1
             anomaly_type := "Unusual Pattern" } : OutRow).final_anomaly = 1 ∧
          ({ totalEnergy := 10, usageVariance := 10
             flags := ⟨true, true, true, true, true⟩
             final_anomaly := 1, anomaly_confidence := 1
             anomaly_type := "Unusual Pattern" } : OutRow).usageVariance >
            quantile ([{ totalEnergy := 0, usageVariance := 0
                         flags := ⟨false, false, false, false, false⟩ },
                       { totalEnergy := 10, usageVariance := 10
                         flags := ⟨true, true, true, true, true⟩ }].map
                        (fun r : Row => r.usageVariance)) (9/10) then
        "Unusual Pattern"
      else if ({ totalEnergy := 10, usageVariance := 10
                 flags := ⟨true, true, true, true, true⟩
                 final_anomaly := 1, anomaly_confidence := 1
                 anomaly_type := "Unusual Pattern" } : OutRow).final_anomaly = 1 ∧
          ({ totalEnergy := 10, usageVariance := 10
             flags := ⟨true, true, true, true, true⟩
             final_anomaly := 1, anomaly_confidence := 1
             anomaly_type := "Unusual Pattern" } : OutRow).totalEnergy <
            quantile ([{ totalEnergy := 0, usageVariance := 0
                         flags := ⟨false, false, false, false, false⟩ },
                       { totalEnergy := 10, usageVariance := 10
                         flags := ⟨true, true, true, true, true⟩ }].map
                        (fun r : Row => r.totalEnergy)) (1/10) then
        "Low Consumption"
      else if ({ totalEnergy := 10, usageVariance := 10
                 flags := ⟨true, true, true, true, true⟩
                 final_anomaly := 1, anomaly_confidence := 1
                 anomaly_type := "Unusual Pattern" } : OutRow).final_anomaly = 1 ∧
          ({ totalEnergy := 10, usageVariance := 10
             flags := ⟨true, true, true, true, true⟩
             final_anomaly := 1, anomaly_confidence := 1
             anomaly_type := "Unusual Pattern" } : OutRow).totalEnergy >
            quantile ([{ totalEnergy := 0, usageVariance := 0
                         flags := ⟨false, false, false, false, false⟩ },
                       { totalEnergy := 10, usageVariance := 10
                         flags := ⟨true, true, true, true, true⟩ }].map
                        (fun r : Row => r.totalEnergy)) (9/10) then
        "High Consumption"
      else "Normal") :=
  anomaly_type_classification
    [{ totalEnergy := 0, usageVariance := 0
       flags := ⟨false, false, false, false, false⟩ },
     { totalEnergy := 10, usageVariance := 10
       flags := ⟨true, true, true, true, true⟩ }]
    _ (by decide)

/-- Counterexample to claim C4 as stated: in the two-row dataset
below no energy value exceeds 1.5 times the column mean, yet the
first room is labeled `"Anomaly"` — the simple detector's label is
the isolation-forest output, which the 1.5×-mean condition does not
constrain (the threshold ladder only sets `Anomaly Reason`). -/
theorem simple_detector_counterexample :
    ¬ ((∀ r ∈ ([{ totalEnergy := 1, isoFlag := true },
                { totalEnergy := 1, isoFlag := false }] : List SimpleRow),
          r.totalEnergy ≤ 3/2 *
            pythonMean ([{ totalEnergy := 1, isoFlag := true },
                         { totalEnergy := 1, isoFlag := false }].map
                          (fun r : SimpleRow => r.totalEnergy))) →
        ∀ o ∈ detect_anomalies
            [{ totalEnergy := 1, isoFlag := true },
             { totalEnergy := 1, isoFlag := false }],
          o.anomaly = "Normal") := by
  decide

/-- Claim C4 as amended: the hypothesis that forces zero anomalous
labels is about the isolation forest, not the 1.5×-mean bound: for
every DataFrame in which the isolation forest flags no row whose
`'Total Energy (kWh)'` is at or above the column mean, the simple
detector `detect_anomalies` labels every row `"Normal"`. -/
theorem simple_detector_all_normal
    (rows : List SimpleRow)
    (h : ∀ r ∈ rows,
      ¬ (r.totalEnergy < pythonMean (rows.map (fun r => r.totalEnergy))) →
      r.isoFlag = false) :
    ∀ o ∈ detect_anomalies rows, o.anomaly = "Normal" := by
  intro o ho
  simp only [detect_anomalies, List.mem_map] at ho
  obtain ⟨r, hr, rfl⟩ := ho
  by_cases hlt : r.totalEnergy < pythonMean (rows.map (fun r => r.totalEnergy))
  · simp [hlt]
  · simp [hlt, h r hr hlt]

/-- Witness for the amended C4: a dataset where the only row at or
above the mean is not flagged by the isolation forest gets no
anomalous label. -/
theorem simple_detector_all_normal_witness :
    ({ totalEnergy := 1, isoFlag := true, anomaly := "Normal"
       anomalyReason := "Normal" } : SimpleOut).anomaly = "Normal" :=
  simple_detector_all_normal
    [{ totalEnergy := 1, isoFlag := true },
     { totalEnergy := 2, isoFlag := false }]
    (by decide) _ (by decide)

/-- Claim C9: after the simple detector `detect_anomalies` runs,
every row whose `'Total Energy (kWh)'` is strictly below the column
mean has `Anomaly = "Normal"`, regardless of the isolation-forest
output. -/
theorem below_mean_rows_are_normal
    (rows : List SimpleRow) (o : SimpleOut) (ho : o ∈ detect_anomalies rows)
    (hlow : o.totalEnergy < pythonMean (rows.map (fun r => r.totalEnergy))) :
    o.anomaly = "Normal" := by
  simp only [detect_anomalies, List.mem_map] at ho
  obtain ⟨r, _, rfl⟩ := ho
  simp only at hlow ⊢
  simp [hlow]

/-- Witness for C9: a below-mean row flagged by the isolation forest
is still labeled `"Normal"`. -/
theorem below_mean_rows_are_normal_witness :
    (1 : ℚ) < pythonMean ([{ totalEnergy := 1, isoFlag := true },
                           { totalEnergy := 3, isoFlag := false }].map
                            (fun r : SimpleRow => r.totalEnergy)) ∧
    ({ totalEnergy := 1, isoFlag := true, anomaly := "Normal"
       anomalyReason := "Normal" } : SimpleOut).anomaly = "Normal" :=
  ⟨by decide,
   below_mean_rows_are_normal
     [{ totalEnergy := 1, isoFlag := true }, { totalEnergy := 3, isoFlag := false }]
     _ (by decide) (by decide)⟩

/-- Counterexample to claim C5 as stated: `load_data` never validates
`bed_type`.  With the invalid bed type `"3"` (outside
`{"2", "4", "6"}`) and a valid month and day, `load_data` does not
raise a `ValueError` before reading: it consults the filesystem and
raises `FileNotFoundError` on a missing file, and even returns the
frame when the file exists. -/
theorem load_data_bed_type_counterexample :
    ("3" ∉ (["2", "4", "6"] : List String)) ∧
    load_data 2025 (fun _ => Option.none) "/data" "3" "January" 1 =
      Except.error LoadError.fileNotFound ∧
    load_data 2025 (fun _ => Option.some ⟨["Total Energy (kWh)"], []⟩)
        "/data" "3" "January" 1 =
      Except.ok ⟨["Total Energy (kWh)"], []⟩ := by
  decide

/-- Claim C5 as amended: `load_data` raises `ValueError` for every
invalid month (title-cased form not an English month name) and for
every day outside the valid range of a valid month, in both cases
before consulting the filesystem; `bed_type` is not validated by
`load_data` — only the CLI `main` checks membership in
`{"2", "4", "6"}`. -/
theorem load_data_validation
    (year : ℕ) (fs : String → Option Frame) (baseDir bedType month : String) (day : ℤ) :
    (pyTitle month ∉ validMonths →
      load_data year fs baseDir bedType month day =
        Except.error LoadError.invalidMonth) ∧
    (∀ m, validate_month month = Except.ok m →
      ¬ (1 ≤ day ∧ day ≤ (daysInMonth year (monthNumber m) : ℤ)) →
      load_data year fs baseDir bedType month day =
        Except.error LoadError.invalidDay) := by
  constructor
  · intro hbad
    have hvm : validate_month month = Except.error LoadError.invalidMonth := by
      simp [validate_month, hbad]
    simp [load_data, hvm]
  · intro m hm hday
    have hvd : validate_day year m day = Except.error LoadError.invalidDay := by
      simp only [validate_day]
      rw [if_neg hday]
    simp [load_data, hm, hvd]

/-- Witness for the amended C5: a misspelled month and an
out-of-range day each raise the corresponding `ValueError`. -/
theorem load_data_validation_witness :
    load_data 2025 (fun _ => Option.none) "/data" "2" "Januarry" 5 =
      Except.error LoadError.invalidMonth ∧
    load_data 2025 (fun _ => Option.none) "/data" "2" "January" 32 =
      Except.error LoadError.invalidDay :=
  ⟨(load_data_validation 2025 (fun _ => Option.none) "/data" "2" "Januarry" 5).1
      (by decide),
   (load_data_validation 2025 (fun _ => Option.none) "/data" "2" "January" 32).2
      "January" (by decide) (by decide)⟩

/-- Claim C6: for a valid month and day, `load_data` builds the path
`base_dir/{month}/{bedType} Bedroom Data - {monthAbbr}/{monthAbbr}_{bedType}bed_energy_consumption_day_{day}.csv`;
it raises `FileNotFoundError` when no file is at that path,
`ValueError` when the loaded CSV lacks a `'Total Energy (kWh)'`
column, and otherwise returns the parsed frame. -/
theorem load_data_path_and_file_errors
    (year : ℕ) (fs : String → Option Frame) (baseDir bedType month : String)
    (day : ℤ) (m : String)
    (hm : validate_month month = Except.ok m)
    (hd : validate_day year m day = Except.ok day) :
    load_data year fs baseDir bedType month day =
      match fs (baseDir ++ "/" ++ m ++ "/" ++
          (bedType ++ " Bedroom Data - " ++ m.take 3) ++ "/" ++
          (m.take 3 ++ "_" ++ bedType ++ "bed_energy_consumption_day_" ++
            toString day ++ ".csv")) with
      | none => Except.error LoadError.fileNotFound
      | some df =>
        if "Total Energy (kWh)" ∈ df.columns then Except.ok df
        else Except.error LoadError.missingColumn := by
  simp [load_data, hm, hd, dataFilePath]

/-- Witness for C6: with the file present at exactly the constructed
path and carrying the required column, `load_data` returns it. -/
theorem load_data_path_witness :
    load_data 2025
        (fun p =>
          if p = "/data/January/6 Bedroom Data - Jan/Jan_6bed_energy_consumption_day_5.csv"
          then Option.some ⟨["Total Energy (kWh)"], []⟩ else Option.none)
        "/data" "6" "january" 5 =
      Except.ok ⟨["Total Energy (kWh)"], []⟩ :=
  (load_data_path_and_file_errors 2025
      (fun p =>
        if p = "/data/January/6 Bedroom Data - Jan/Jan_6bed_energy_consumption_day_5.csv"
        then Option.some ⟨["Total Energy (kWh)"], []⟩ else Option.none)
      "/data" "6" "january" 5 "January" (by decide) (by decide)).trans
    (by decide)

/-- Claim C7: for every exception raised anywhere inside the analysis
pipeline of the `POST /api/analyze` handler, the handler catches it
and returns the HTTP 500 JSON body carrying `str(e)` and
`traceback.format_exc()` instead of propagating the exception. -/
theorem analyze_catches_pipeline_exceptions
    (α : Type) (req : AnalyzeRequest)
    (pipeline : String → String → String → Except PyExc α)
    (b m d : String) (e : PyExc)
    (hb : req.bedType = some b) (hm : req.month = some m) (hd : req.day = some d)
    (hb' : b ≠ "") (hm' : m ≠ "") (hd' : d ≠ "")
    (hp : pipeline b m d = Except.error e) :
    analyze_data req pipeline =
      { status := 500, success := false, payload := none
        errorMsg := some e.msg, traceback := some e.trace } := by
  rcases req with ⟨rb, rm, rd⟩
  simp only at hb hm hd
  subst hb hm hd
  simp [analyze_data, truthyStr, hb', hm', hd', hp]

/-- Witness for C7: a raising pipeline yields the 500 JSON error
body. -/
theorem analyze_catches_witness :
    analyze_data (α := ℕ) ⟨some "2", some "January", some "1"⟩
        (fun _ _ _ => Except.error ⟨"boom", "Traceback (most recent call last)"⟩) =
      { status := 500, success := false, payload := none
        errorMsg := some "boom"
        traceback := some "Traceback (most recent call last)" } :=
  analyze_catches_pipeline_exceptions ℕ ⟨some "2", some "January", some "1"⟩
    (fun _ _ _ => Except.error ⟨"boom", "Traceback (most recent call last)"⟩)
    "2" "January" "1" ⟨"boom", "Traceback (most recent call last)"⟩
    rfl rfl rfl (by decide) (by decide) (by decide) rfl

/-- Claim C8: for every room record produced by the data generator,
the derived `'Total Energy (kWh)'` value equals the exact sum of that
room's 12 two-hour interval readings. -/
theorem generated_total_is_sum_of_intervals
    (rand : ℕ → ℕ → ℚ → ℚ → ℚ) (day : ℕ) (rec : GenRecord)
    (hrec : rec ∈ generateDay rand day) :
    rec.totalEnergy = rec.usage.sum ∧ rec.usage.length = 12 := by
  simp only [generateDay, List.mem_map] at hrec
  obtain ⟨room, _, rfl⟩ := hrec
  exact ⟨rfl, rfl⟩

/-- Witness for C8 with the constant-1 sampler: each record totals
12. -/
theorem generated_total_witness :
    ({ day := 3, roomNo := 1, usage := List.replicate 12 1
       totalEnergy := 12 } : GenRecord).totalEnergy =
      ({ day := 3, roomNo := 1, usage := List.replicate 12 1
         totalEnergy := 12 } : GenRecord).usage.sum ∧
    ({ day := 3, roomNo := 1, usage := List.replicate 12 1
       totalEnergy := 12 } : GenRecord).usage.length = 12 :=
  generated_total_is_sum_of_intervals (fun _ _ _ _ => 1) 3 _ (by decide)

end Energy
